import Mathlib

/-!
Verification of the authentication core in `src/resolvers/user.ts`
(the `UserResolver` class: `me`, `register`, `login`, `logout`,
`forgotPassword`) against its natural-language specification.

The resolver methods are shallowly embedded as pure Lean functions.
External collaborators are passed explicitly:
* the entity store `em` becomes a `List User` (queries via `List.find?`,
  matching `em.findOne`);
* the argon2 hasher becomes function parameters `hash`/`verify`;
* the outcome of `em.persistAndFlush` and of `req.session.destroy` become
  explicit outcome parameters (what the external store reports back);
* the express session becomes a `Session` value threaded in and out;
* the redis token store becomes a `List (String × Nat)` association list.

Side effects (hashing, persisting, session writes, redis writes, emails,
cookie clearing) are recorded in an `Event` trace so that claims about
"no persist attempt", "exactly one token written", ordering of lookup
versus verification, and unconditional cookie clearing are statable.
-/

/-- The `FieldError` object type from user.ts (lines 20-27). -/
structure FieldError where
  field : String
  message : String
deriving DecidableEq, Repr

/-- The `User` entity as used by the resolver: `id`, `username`, `email`
and a `password` column that stores the (hashed) password. -/
structure User where
  id : Nat
  username : String
  email : String
  password : String
deriving DecidableEq, Repr

/-- The `UserResponse` object type from user.ts (lines 29-36): an optional
errors list and an optional user. -/
structure UserResponse where
  errors : Option (List FieldError)
  user : Option User
deriving DecidableEq, Repr

/-- The express session as seen by the resolver: it holds at most the
authenticated user id (`req.session.userId`). -/
structure Session where
  userId : Option Nat
deriving DecidableEq, Repr

/-- The `UsernamePasswordInput` argument type (imported from
../types/UsernamePasswordInput):
the fields destructured by `register` (line 59). -/
structure UsernamePasswordInput where
  username : String
  password : String
  email : String
deriving DecidableEq, Repr

/-- Queries passed to `em.findOne(User, ...)`: by id (used in `me`),
by username or by email (used in `login` / `forgotPassword`). -/
inductive Query where
  | byId (id : Nat)
  | byUsername (name : String)
  | byEmail (address : String)
deriving DecidableEq, Repr

/-- Outcome of `em.persistAndFlush`: success, or a database error carrying
the driver error code string (`error.code` in the catch block, line 78). -/
inductive PersistOutcome where
  | ok
  | dbError (code : String)
deriving DecidableEq, Repr

/-- Observable side effects of a resolver call, in execution order. -/
inductive Event where
  | hashPassword (plaintext : String)
  | persistAttempt (u : User)
  | sessionWrite (id : Nat)
  | findOne (q : Query)
  | verifyPassword (stored plaintext : String)
  | redisSet (key : String) (value : Nat) (ttlSeconds : Nat)
  | sendEmail (recipient : String) (html : String)
  | clearCookie (name : String)
deriving DecidableEq, Repr

/-- The `.includes("@")` test used by the validator and by `login` to tell
an email apart from a username, expressed over the string's characters. -/
def hasAtSign (s : String) : Bool :=
  s.data.contains '@'

/-- Embedding of `em.findOne(User, query)` over the record repository. -/
def findOneUser (db : List User) (q : Query) : Option User :=
  match q with
  | Query.byId i => db.find? (fun u => u.id == i)
  | Query.byUsername n => db.find? (fun u => u.username == n)
  | Query.byEmail e => db.find? (fun u => u.email == e)

/-- Modelled from the spec: `validateRegister` is imported from
`../utils/validateRegister`, whose source is not under src/. §4.2 of the
spec: username non-empty and of minimum length, must not contain `@`;
email must contain `@`; password of minimum length; the FIRST violated
rule is returned as a field-tagged error, at most one error per call,
and an input passing every rule yields no errors. The two minimum
lengths are policy parameters the spec does not fix numerically. -/
def validateRegister (minUsernameLen minPasswordLen : Nat)
    (i : UsernamePasswordInput) : Option (List FieldError) :=
  if i.username.length < minUsernameLen then
    some [{ field := "username", message := "username too short" }]
  else if hasAtSign i.username then
    some [{ field := "username", message := "username cannot include an at sign" }]
  else if hasAtSign i.email = false then
    some [{ field := "email", message := "invalid email" }]
  else if i.password.length < minPasswordLen then
    some [{ field := "password", message := "password too short" }]
  else
    none

/-- Embedding of `UserResolver.register` (user.ts lines 56-89).
1. Run `validateRegister`; if it reports errors, return them at once.
2. Hash the password with argon2 (`hash` parameter).
3. `em.create` the user record (the id the store assigns is `newId`).
4. `em.persistAndFlush` inside try/catch: on `error.code == "23505"` return
   the single "username already taken" field error; any OTHER error is only
   logged and execution falls through to the success path (the reference
   defect noted in the spec).
5. Success path: `req.session.userId = user.id` and return `{ user }`. -/
def register (minUsernameLen minPasswordLen : Nat) (hash : String → String)
    (input : UsernamePasswordInput) (newId : Nat)
    (persistOutcome : PersistOutcome) (s : Session) :
    UserResponse × Session × List Event :=
  match validateRegister minUsernameLen minPasswordLen input with
  | some errors => ({ errors := some errors, user := none }, s, [])
  | none =>
    let hashedPassword := hash input.password
    let user : User :=
      { id := newId, username := input.username, email := input.email,
        password := hashedPassword }
    match persistOutcome with
    | PersistOutcome.dbError code =>
      if code == "23505" then
        ({ errors := some [{ field := "username", message := "username already taken" }],
           user := none },
         s,
         [Event.hashPassword input.password, Event.persistAttempt user])
      else
        ({ errors := none, user := some user },
         { userId := some user.id },
         [Event.hashPassword input.password, Event.persistAttempt user,
          Event.sessionWrite user.id])
    | PersistOutcome.ok =>
      ({ errors := none, user := some user },
       { userId := some user.id },
       [Event.hashPassword input.password, Event.persistAttempt user,
        Event.sessionWrite user.id])

/-- The query `login` builds at user.ts lines 100-105: the identifier is
looked up by email when it contains `@`, by username otherwise. -/
def loginQuery (usernameOrEmail : String) : Query :=
  if hasAtSign usernameOrEmail then Query.byEmail usernameOrEmail
  else Query.byUsername usernameOrEmail

/-- Embedding of `UserResolver.login` (user.ts lines 92-134).
1. `em.findOne` by email or username depending on whether the identifier
   contains `@`.
2. No record: return the `usernameOrEmail` field error quoting the input.
3. `argon2.verify(user.password, password)` (`verify` parameter); mismatch:
   return the `password` field error.
4. Match: `req.session.userId = user.id` and return `{ user }`. -/
def login (verify : String → String → Bool) (db : List User)
    (usernameOrEmail password : String) (s : Session) :
    UserResponse × Session × List Event :=
  let q := loginQuery usernameOrEmail
  match findOneUser db q with
  | none =>
    ({ errors := some [{ field := "usernameOrEmail",
                         message := "\"" ++ usernameOrEmail ++ "\" does not exist" }],
       user := none },
     s, [Event.findOne q])
  | some user =>
    if verify user.password password then
      ({ errors := none, user := some user },
       { userId := some user.id },
       [Event.findOne q, Event.verifyPassword user.password password,
        Event.sessionWrite user.id])
    else
      ({ errors := some [{ field := "password", message := "incorrect password" }],
         user := none },
       s,
       [Event.findOne q, Event.verifyPassword user.password password])

/-- Modelled from the spec: the constant COOKIE_NAME imported from
`../constants`, whose source is not under src/. The spec only says there is
"one named session cookie"; the concrete name is immaterial to every claim. -/
def COOKIE_NAME : String :=
  "qid"

/-- A promise `resolve`: only the first call settles the value; later calls
are ignored. `logout`'s callback calls `resolve(false)` on a destroy error
and then unconditionally reaches `resolve(true)`. -/
def resolveOnce (settled : Option Bool) (v : Bool) : Option Bool :=
  match settled with
  | some r => some r
  | none => some v

/-- Embedding of `UserResolver.logout` (user.ts lines 136-148).
Here `req.session.destroy`
reports `destroyError` to the callback; the callback first clears the
session cookie, then on an error logs it and resolves `false`, then (with
no `else`/`return`) reaches `resolve(true)`, which is a no-op when the
promise is already settled. Returns the settled value and the trace. -/
def logout (destroyError : Option String) : Option Bool × List Event :=
  let events := [Event.clearCookie COOKIE_NAME]
  let afterError : Option Bool :=
    if destroyError.isSome then resolveOnce none false else none
  (resolveOnce afterError true, events)

/-- Modelled from the spec: the constant FORGET_PASSWORD_PREFIX imported
from `../constants`, whose source is not under src/. The spec does not give
its value; it is the non-empty namespacing string prepended to reset-token
keys in the redis store. -/
def FORGET_PASSWORD_PREFIX : String :=
  "forget-password:"

/-- Modelled from the spec: the constant THREE_DAYS imported from
`../constants`, whose source is not under src/. §6 of the spec fixes the
token TTL at three days; expressed in seconds as consumed by the store's
`"ex"` option. -/
def THREE_DAYS : Nat :=
  3 * 24 * 60 * 60

/-- Lookup in the redis-modelling association list (newest entry first,
matching overwrite-by-shadowing on `set`). -/
def storeGet (store : List (String × Nat)) (key : String) : Option Nat :=
  (store.find? (fun e => e.1 == key)).map (fun e => e.2)

/-- The reset link html built at user.ts line 160; it embeds the bare
token, with no key prefix. -/
def resetLinkHtml (token : String) : String :=
  "<div><a href=\"http://localhost:3000/change-password/" ++ token
    ++ "\">reset password</a></div>"

/-- Embedding of `UserResolver.forgotPassword` (user.ts lines 150-168).
1. `em.findOne(User, { email })`; not found: return `true` at once.
2. Generate a uuid token (`genToken` parameter — the value `v4()` yields).
3. `redis.set(FORGET_PASSWORD_PREFIX + token, user.id, "ex", THREE_DAYS)`.
4. `sendEmail(email, htmlLink)` fire-and-forget: its outcome
   (`sendOutcome` parameter) is never awaited or inspected.
5. Return `true`. -/
def forgotPassword (db : List User) (email : String) (genToken : String)
    (sendOutcome : Except String Unit) (store : List (String × Nat)) :
    Bool × List (String × Nat) × List Event :=
  match db.find? (fun u => u.email == email) with
  | none => (true, store, [])
  | some user =>
    let token := genToken
    let htmlLink := resetLinkHtml token
    let _ := sendOutcome
    let key := FORGET_PASSWORD_PREFIX ++ token
    (true,
     (key, user.id) :: store,
     [Event.redisSet key user.id THREE_DAYS, Event.sendEmail email htmlLink])

/-- Embedding of `UserResolver.me` (user.ts lines 41-50). No session user
id: return
null; otherwise `em.findOne(User, { id })` and return whatever that
lookup yields (a dangling id degrades silently to null). -/
def me (db : List User) (s : Session) : Option User :=
  match s.userId with
  | none => none
  | some uid => db.find? (fun u => u.id == uid)

/-- A concrete stand-in hasher used only to instantiate witnesses. -/
def exampleHash (plaintext : String) : String :=
  "hashed:" ++ plaintext

/-- A concrete stand-in verifier agreeing with `exampleHash`, used only to
instantiate witnesses. -/
def exampleVerify (stored plaintext : String) : Bool :=
  stored == "hashed:" ++ plaintext

/-- Any errors list `validateRegister` reports is non-empty (it is always
a single field-tagged error). -/
theorem validateRegister_errors_nonempty (minUsernameLen minPasswordLen : Nat)
    (i : UsernamePasswordInput) (errs : List FieldError)
    (h : validateRegister minUsernameLen minPasswordLen i = some errs) :
    errs ≠ [] := by
  intro hnil
  subst hnil
  unfold validateRegister at h
  repeat' split at h
  all_goals simp_all

/-- C1: the spec demands that a persist failure other than a duplicate-key
error make `register` return an error result without touching the session.
The code violates this: evaluated at a valid input whose persist fails with
the non-duplicate code "40001", the embedded `register` returns no errors,
returns a success envelope carrying the (unsaved) user, and writes the
user id into the session. -/
theorem register_nonduplicate_failure_reaches_success_path :
    register 3 3 exampleHash
        { username := "alice", password := "secretpw", email := "alice@mail.com" }
        1 (PersistOutcome.dbError "40001") { userId := none } =
      ({ errors := none,
         user := some { id := 1, username := "alice", email := "alice@mail.com",
                        password := "hashed:secretpw" } },
       { userId := some 1 },
       [Event.hashPassword "secretpw",
        Event.persistAttempt { id := 1, username := "alice", email := "alice@mail.com",
                               password := "hashed:secretpw" },
        Event.sessionWrite 1]) := by
  decide

/-- C2: when validation passes and the persist step fails with the
duplicate-key code "23505", `register` returns exactly one FieldError with
field "username" and message "username already taken", no user, and the
session is returned unchanged (no session write in the trace). -/
theorem register_duplicate_key_reports_username_taken
    (minUsernameLen minPasswordLen : Nat) (hash : String → String)
    (input : UsernamePasswordInput) (newId : Nat) (s : Session)
    (hvalid : validateRegister minUsernameLen minPasswordLen input = none) :
    register minUsernameLen minPasswordLen hash input newId
        (PersistOutcome.dbError "23505") s =
      ({ errors := some [{ field := "username", message := "username already taken" }],
         user := none },
       s,
       [Event.hashPassword input.password,
        Event.persistAttempt { id := newId, username := input.username,
                               email := input.email, password := hash input.password }]) := by
  unfold register
  rw [hvalid]
  simp

theorem register_duplicate_key_reports_username_taken_witness :
    register 3 3 exampleHash
        { username := "alice", password := "secretpw", email := "alice@mail.com" }
        1 (PersistOutcome.dbError "23505") { userId := some 7 } =
      ({ errors := some [{ field := "username", message := "username already taken" }],
         user := none },
       { userId := some 7 },
       [Event.hashPassword "secretpw",
        Event.persistAttempt { id := 1, username := "alice", email := "alice@mail.com",
                               password := exampleHash "secretpw" }]) :=
  register_duplicate_key_reports_username_taken 3 3 exampleHash
    { username := "alice", password := "secretpw", email := "alice@mail.com" }
    1 { userId := some 7 } (by decide)

/-- C3: when validation passes and persist succeeds, `register` returns a
success envelope whose user's password field is the hash of the plaintext
(and, under the hasher's non-identity on this input, not the plaintext
itself), and the session's userId is set to the new user's id. -/
theorem register_success_hashes_password_and_sets_session
    (minUsernameLen minPasswordLen : Nat) (hash : String → String)
    (input : UsernamePasswordInput) (newId : Nat) (s : Session)
    (hvalid : validateRegister minUsernameLen minPasswordLen input = none)
    (hhash : hash input.password ≠ input.password) :
    (register minUsernameLen minPasswordLen hash input newId PersistOutcome.ok s =
      ({ errors := none,
         user := some { id := newId, username := input.username,
                        email := input.email, password := hash input.password } },
       { userId := some newId },
       [Event.hashPassword input.password,
        Event.persistAttempt { id := newId, username := input.username,
                               email := input.email, password := hash input.password },
        Event.sessionWrite newId]))
    ∧ hash input.password ≠ input.password := by
  refine ⟨?_, hhash⟩
  unfold register
  rw [hvalid]

theorem register_success_hashes_password_and_sets_session_witness :
    (register 3 3 exampleHash
        { username := "alice", password := "secretpw", email := "alice@mail.com" }
        1 PersistOutcome.ok { userId := none } =
      ({ errors := none,
         user := some { id := 1, username := "alice", email := "alice@mail.com",
                        password := exampleHash "secretpw" } },
       { userId := some 1 },
       [Event.hashPassword "secretpw",
        Event.persistAttempt { id := 1, username := "alice", email := "alice@mail.com",
                               password := exampleHash "secretpw" },
        Event.sessionWrite 1]))
    ∧ exampleHash "secretpw" ≠ "secretpw" :=
  register_success_hashes_password_and_sets_session 3 3 exampleHash
    { username := "alice", password := "secretpw", email := "alice@mail.com" }
    1 { userId := none } (by decide) (by decide)

/-- C4: when the validator reports errors, `register` returns exactly those
errors (a non-empty list), no user, the session unchanged, and an empty
trace: no hashing, no record creation or persist attempt, no session
write. -/
theorem register_validation_error_short_circuits
    (minUsernameLen minPasswordLen : Nat) (hash : String → String)
    (input : UsernamePasswordInput) (newId : Nat) (po : PersistOutcome)
    (s : Session) (errs : List FieldError)
    (hvalid : validateRegister minUsernameLen minPasswordLen input = some errs) :
    register minUsernameLen minPasswordLen hash input newId po s =
        ({ errors := some errs, user := none }, s, [])
    ∧ errs ≠ [] := by
  refine ⟨?_, validateRegister_errors_nonempty _ _ _ _ hvalid⟩
  unfold register
  rw [hvalid]

theorem register_validation_error_short_circuits_witness :
    (register 3 3 exampleHash { username := "a", password := "secretpw", email := "a@b.c" }
        1 PersistOutcome.ok { userId := none } =
      ({ errors := some [{ field := "username", message := "username too short" }],
         user := none },
       { userId := none }, []))
    ∧ [FieldError.mk "username" "username too short"] ≠ ([] : List FieldError) :=
  register_validation_error_short_circuits 3 3 exampleHash
    { username := "a", password := "secretpw", email := "a@b.c" }
    1 PersistOutcome.ok { userId := none }
    [FieldError.mk "username" "username too short"] (by decide)

/-- C5: `login` classifies the identifier by whether it contains `@`
(email lookup when it does, username lookup otherwise); the repository
lookup is the first event of every trace, so the existence check precedes
any password verification; and when no record matches, `login` returns the
single `usernameOrEmail` FieldError quoting the given identifier, with the
session unchanged. -/
theorem login_classifies_before_verifying_and_reports_missing
    (verify : String → String → Bool) (db : List User)
    (usernameOrEmail password : String) (s : Session) :
    (login verify db usernameOrEmail password s).2.2.head? =
        some (Event.findOne (if hasAtSign usernameOrEmail then Query.byEmail usernameOrEmail
                             else Query.byUsername usernameOrEmail))
    ∧ (∀ k stored plain,
        (login verify db usernameOrEmail password s).2.2.get? k =
            some (Event.verifyPassword stored plain) → 0 < k)
    ∧ (findOneUser db (loginQuery usernameOrEmail) = none →
        login verify db usernameOrEmail password s =
          ({ errors := some [{ field := "usernameOrEmail",
                               message := "\"" ++ usernameOrEmail ++ "\" does not exist" }],
             user := none },
           s, [Event.findOne (loginQuery usernameOrEmail)])) := by
  rcases h : findOneUser db (loginQuery usernameOrEmail) with _ | u
  · have ht : (login verify db usernameOrEmail password s).2.2 =
        [Event.findOne (loginQuery usernameOrEmail)] := by
      simp [login, h]
    refine ⟨?_, ?_, ?_⟩
    · rw [ht]
      simp [loginQuery]
    · intro k stored plain hk
      rw [ht] at hk
      cases k with
      | zero => simp at hk
      | succ n => exact Nat.succ_pos n
    · intro _
      simp [login, h]
  · rcases hv : verify u.password password with _ | _
    · have ht : (login verify db usernameOrEmail password s).2.2 =
          [Event.findOne (loginQuery usernameOrEmail),
           Event.verifyPassword u.password password] := by
        simp [login, h, hv]
      refine ⟨?_, ?_, ?_⟩
      · rw [ht]
        simp [loginQuery]
      · intro k stored plain hk
        rw [ht] at hk
        cases k with
        | zero => simp at hk
        | succ n => exact Nat.succ_pos n
      · intro hcontra
        exact Option.noConfusion hcontra
    · have ht : (login verify db usernameOrEmail password s).2.2 =
          [Event.findOne (loginQuery usernameOrEmail),
           Event.verifyPassword u.password password,
           Event.sessionWrite u.id] := by
        simp [login, h, hv]
      refine ⟨?_, ?_, ?_⟩
      · rw [ht]
        simp [loginQuery]
      · intro k stored plain hk
        rw [ht] at hk
        cases k with
        | zero => simp at hk
        | succ n => exact Nat.succ_pos n
      · intro hcontra
        exact Option.noConfusion hcontra

theorem login_classifies_before_verifying_and_reports_missing_witness :
    (login exampleVerify [] "ghost" "pw" { userId := none }).2.2.head? =
        some (Event.findOne (if hasAtSign "ghost" then Query.byEmail "ghost"
                             else Query.byUsername "ghost"))
    ∧ (∀ k stored plain,
        (login exampleVerify [] "ghost" "pw" { userId := none }).2.2.get? k =
            some (Event.verifyPassword stored plain) → 0 < k)
    ∧ (findOneUser [] (loginQuery "ghost") = none →
        login exampleVerify [] "ghost" "pw" { userId := none } =
          ({ errors := some [{ field := "usernameOrEmail",
                               message := "\"" ++ "ghost" ++ "\" does not exist" }],
             user := none },
           { userId := none }, [Event.findOne (loginQuery "ghost")])) :=
  login_classifies_before_verifying_and_reports_missing exampleVerify [] "ghost" "pw"
    { userId := none }

/-- C6: when the lookup finds a record but password verification against
the stored hash fails, `login` returns the single `password` FieldError
with message "incorrect password", no user, and the session unchanged. -/
theorem login_wrong_password_leaves_session_unchanged
    (verify : String → String → Bool) (db : List User)
    (usernameOrEmail password : String) (s : Session) (u : User)
    (hfind : findOneUser db (loginQuery usernameOrEmail) = some u)
    (hverify : verify u.password password = false) :
    login verify db usernameOrEmail password s =
      ({ errors := some [{ field := "password", message := "incorrect password" }],
         user := none },
       s,
       [Event.findOne (loginQuery usernameOrEmail),
        Event.verifyPassword u.password password]) := by
  simp [login, hfind, hverify]

theorem login_wrong_password_leaves_session_unchanged_witness :
    login exampleVerify [{ id := 1, username := "bob", email := "bob@mail.com",
                           password := "hashed:pw" }]
        "bob" "wrong" { userId := some 5 } =
      ({ errors := some [{ field := "password", message := "incorrect password" }],
         user := none },
       { userId := some 5 },
       [Event.findOne (loginQuery "bob"),
        Event.verifyPassword "hashed:pw" "wrong"]) :=
  login_wrong_password_leaves_session_unchanged exampleVerify
    [{ id := 1, username := "bob", email := "bob@mail.com", password := "hashed:pw" }]
    "bob" "wrong" { userId := some 5 }
    { id := 1, username := "bob", email := "bob@mail.com", password := "hashed:pw" }
    (by decide) (by decide)

/-- C7: `logout` clears the session cookie no matter how the destroy ends,
and the promise settles to `true` exactly when the destroy reported no
error (the callback's `resolve(false)` wins over the later unconditional
`resolve(true)` because a promise only settles once). -/
theorem logout_clears_cookie_and_reports_destroy_outcome
    (destroyError : Option String) :
    (logout destroyError).2 = [Event.clearCookie COOKIE_NAME]
    ∧ (logout destroyError).1 = some destroyError.isNone := by
  cases destroyError <;> simp [logout, resolveOnce]

theorem logout_clears_cookie_and_reports_destroy_outcome_witness :
    ((logout none).2 = [Event.clearCookie COOKIE_NAME]
      ∧ (logout none).1 = some (none : Option String).isNone)
    ∧ ((logout (some "boom")).2 = [Event.clearCookie COOKIE_NAME]
      ∧ (logout (some "boom")).1 = some (some "boom").isNone) :=
  ⟨logout_clears_cookie_and_reports_destroy_outcome none,
   logout_clears_cookie_and_reports_destroy_outcome (some "boom")⟩

/-- C8: `forgotPassword` on an unknown email returns `true` having written
nothing; on a known email it returns `true` having written exactly one
token entry mapping the prefixed key to that user's id with the three-day
TTL and having sent exactly one reset email; and the returned boolean is
`true` whatever the (ignored) email-send outcome is. -/
theorem forgotPassword_always_true_and_issues_one_token
    (db : List User) (email genToken : String) (sendOutcome : Except String Unit)
    (store : List (String × Nat)) :
    (db.find? (fun x => x.email == email) = none →
        forgotPassword db email genToken sendOutcome store = (true, store, []))
    ∧ (∀ u, db.find? (fun x => x.email == email) = some u →
        forgotPassword db email genToken sendOutcome store =
          (true,
           ( FORGET_PASSWORD_PREFIX ++ genToken, u.id) :: store,
           [Event.redisSet ( FORGET_PASSWORD_PREFIX ++ genToken) u.id THREE_DAYS,
            Event.sendEmail email (resetLinkHtml genToken)]))
    ∧ (forgotPassword db email genToken sendOutcome store).1 = true := by
  refine ⟨?_, ?_, ?_⟩
  · intro hnone
    simp [forgotPassword, hnone]
  · intro u hu
    simp [forgotPassword, hu]
  · rcases h : db.find? (fun x => x.email == email) with _ | u <;>
      simp [forgotPassword, h]

theorem forgotPassword_always_true_and_issues_one_token_witness :
    (([] : List User).find? (fun x => x.email == "nobody@mail.com") = none →
        forgotPassword [] "nobody@mail.com" "tok123" (Except.error "smtp down") [] =
          (true, [], []))
    ∧ (∀ u, ([] : List User).find? (fun x => x.email == "nobody@mail.com") = some u →
        forgotPassword [] "nobody@mail.com" "tok123" (Except.error "smtp down") [] =
          (true,
           ( FORGET_PASSWORD_PREFIX ++ "tok123", u.id) :: [],
           [Event.redisSet ( FORGET_PASSWORD_PREFIX ++ "tok123") u.id THREE_DAYS,
            Event.sendEmail "nobody@mail.com" (resetLinkHtml "tok123")]))
    ∧ (forgotPassword [] "nobody@mail.com" "tok123" (Except.error "smtp down") []).1 = true :=
  forgotPassword_always_true_and_issues_one_token [] "nobody@mail.com" "tok123"
    (Except.error "smtp down") []

/-- C9: `me` returns absent when the session holds no user id; returns
absent, with no error signalled, when the held id resolves to no record;
and otherwise returns exactly what the lookup by that id finds. -/
theorem me_resolves_session_user (db : List User) (s : Session) :
    (s.userId = none → me db s = none)
    ∧ (∀ uid, s.userId = some uid → db.find? (fun x => x.id == uid) = none →
        me db s = none)
    ∧ (∀ uid, s.userId = some uid → me db s = db.find? (fun x => x.id == uid)) := by
  refine ⟨?_, ?_, ?_⟩
  · intro h
    simp [me, h]
  · intro uid h hnone
    simp [me, h, hnone]
  · intro uid h
    simp [me, h]

theorem me_resolves_session_user_witness :
    (({ userId := some 3 } : Session).userId = none →
        me [{ id := 1, username := "bob", email := "bob@mail.com",
              password := "hashed:pw" }] { userId := some 3 } = none)
    ∧ (∀ uid, ({ userId := some 3 } : Session).userId = some uid →
        ([{ id := 1, username := "bob", email := "bob@mail.com",
            password := "hashed:pw" }] : List User).find? (fun x => x.id == uid) = none →
        me [{ id := 1, username := "bob", email := "bob@mail.com",
              password := "hashed:pw" }] { userId := some 3 } = none)
    ∧ (∀ uid, ({ userId := some 3 } : Session).userId = some uid →
        me [{ id := 1, username := "bob", email := "bob@mail.com",
              password := "hashed:pw" }] { userId := some 3 } =
          ([{ id := 1, username := "bob", email := "bob@mail.com",
              password := "hashed:pw" }] : List User).find? (fun x => x.id == uid)) :=
  me_resolves_session_user
    [{ id := 1, username := "bob", email := "bob@mail.com", password := "hashed:pw" }]
    { userId := some 3 }

/-- The redis key written by `forgotPassword` is never the bare token:
the non-empty FORGET_PASSWORD_PREFIX is prepended. -/
theorem forget_password_key_ne_bare_token (token : String) :
    FORGET_PASSWORD_PREFIX ++ token ≠ token := by
  intro h
  have hl := congrArg String.length h
  rw [String.length_append] at hl
  have hp : String.length FORGET_PASSWORD_PREFIX = 16 := by decide
  omega

/-- C10: on an existing email, the key written to the token store is
FORGET_PASSWORD_PREFIX concatenated with the generated token, while the
emailed reset link embeds only the bare token; hence looking the bare
token up in the resulting store (fresh for that token beforehand) yields
absent. -/
theorem forgotPassword_prefixed_key_but_bare_token_in_link
    (db : List User) (email genToken : String) (sendOutcome : Except String Unit)
    (store : List (String × Nat)) (u : User)
    (hfind : db.find? (fun x => x.email == email) = some u)
    (hfresh : storeGet store genToken = none) :
    (forgotPassword db email genToken sendOutcome store).2.1 =
        ( FORGET_PASSWORD_PREFIX ++ genToken, u.id) :: store
    ∧ (forgotPassword db email genToken sendOutcome store).2.2 =
        [Event.redisSet ( FORGET_PASSWORD_PREFIX ++ genToken) u.id THREE_DAYS,
         Event.sendEmail email (resetLinkHtml genToken)]
    ∧ resetLinkHtml genToken =
        "<div><a href=\"http://localhost:3000/change-password/" ++ genToken
          ++ "\">reset password</a></div>"
    ∧ storeGet (forgotPassword db email genToken sendOutcome store).2.1 genToken = none := by
  have hstore : (forgotPassword db email genToken sendOutcome store).2.1 =
      ( FORGET_PASSWORD_PREFIX ++ genToken, u.id) :: store := by
    simp [forgotPassword, hfind]
  refine ⟨hstore, ?_, rfl, ?_⟩
  · simp [forgotPassword, hfind]
  · rw [hstore]
    unfold storeGet
    rw [List.find?_cons_of_neg]
    · exact hfresh
    · intro hc
      simp only [beq_iff_eq] at hc
      exact forget_password_key_ne_bare_token genToken hc

theorem forgotPassword_prefixed_key_but_bare_token_in_link_witness :
    (forgotPassword [{ id := 1, username := "bob", email := "bob@mail.com",
                       password := "hashed:pw" }]
        "bob@mail.com" "tok123" (Except.ok ()) []).2.1 =
        ( FORGET_PASSWORD_PREFIX ++ "tok123", 1) :: []
    ∧ (forgotPassword [{ id := 1, username := "bob", email := "bob@mail.com",
                         password := "hashed:pw" }]
        "bob@mail.com" "tok123" (Except.ok ()) []).2.2 =
        [Event.redisSet ( FORGET_PASSWORD_PREFIX ++ "tok123") 1 THREE_DAYS,
         Event.sendEmail "bob@mail.com" (resetLinkHtml "tok123")]
    ∧ resetLinkHtml "tok123" =
        "<div><a href=\"http://localhost:3000/change-password/" ++ "tok123"
          ++ "\">reset password</a></div>"
    ∧ storeGet (forgotPassword [{ id := 1, username := "bob", email := "bob@mail.com",
                                  password := "hashed:pw" }]
        "bob@mail.com" "tok123" (Except.ok ()) []).2.1 "tok123" = none :=
  forgotPassword_prefixed_key_but_bare_token_in_link
    [{ id := 1, username := "bob", email := "bob@mail.com", password := "hashed:pw" }]
    "bob@mail.com" "tok123" (Except.ok ()) []
    { id := 1, username := "bob", email := "bob@mail.com", password := "hashed:pw" }
    (by decide) (by decide)
